import Mathlib

/-!
Verification of `src/Ticket_Master.py` (Ticketmaster Discovery API CSV
exporter), a shallow embedding in Lean 4.

The script consumes JSON payloads as Python `dict`/`list`/`str`/`None`
values.  We model that value space as `PyVal`, with Python semantics for
`dict.get` (an `AttributeError` is raised when `.get` is called on a
non-dict, modelled with `Except Unit`), Python truthiness, and Python's
`x or y`.

The exporter `fetch_all_events_to_csv` performs network and file I/O.  We
model it as a function from a scripted list of HTTP responses (the i-th
response answers the i-th request the code issues) to the trace of
observable effects: opening the output file, writing the CSV header,
issuing a request (with its query parameters), writing one event row,
raising the `RuntimeError` for a non-200 status, or raising a Python-level
type/attribute error on a malformed payload.  The stdout debug block of
the source (lines 114-122) only prints when the payload is a dict and is
not modelled; on a non-dict payload it raises an `AttributeError` at the
same point in the trace where our `eventsOf` does.
-/

/-- Python values as consumed by the script: `None`, strings, dicts with
string keys, and lists.  (The consumed payload fields are all of these
shapes; numbers and booleans never reach the fields the script touches.) -/
inductive PyVal where
  | none : PyVal
  | str : String → PyVal
  | dict : List (String × PyVal) → PyVal
  | list : List PyVal → PyVal

/-- Python truthiness: `None` is falsy; strings, dicts and lists are truthy
iff nonempty. -/
def truthy : PyVal → Bool
  | .none => false
  | .str s => !s.isEmpty
  | .dict d => !d.isEmpty
  | .list l => !l.isEmpty

/-- Python `x or y`: returns `x` when `x` is truthy, else `y`. -/
def pyOr (x y : PyVal) : PyVal :=
  if truthy x then x else y

/-- A single-quote character as a string, used by `pyRepr`. -/
def pyQuote : String := String.singleton (Char.ofNat 39)

mutual
/-- Python `repr` of a value (string escaping is not modelled; no claim
involves a string containing quotes or backslashes). -/
def pyRepr : PyVal → String
  | .none => "None"
  | .str s => pyQuote ++ s ++ pyQuote
  | .dict d => "\x7b" ++ pyReprFields d ++ "\x7d"
  | .list l => "[" ++ pyReprElems l ++ "]"

/-- Comma-separated `repr` of dict entries. -/
def pyReprFields : List (String × PyVal) → String
  | [] => ""
  | [kv] => pyQuote ++ kv.1 ++ pyQuote ++ ": " ++ pyRepr kv.2
  | kv :: rest => pyQuote ++ kv.1 ++ pyQuote ++ ": " ++ pyRepr kv.2 ++ ", " ++ pyReprFields rest

/-- Comma-separated `repr` of list elements. -/
def pyReprElems : List PyVal → String
  | [] => ""
  | [v] => pyRepr v
  | v :: rest => pyRepr v ++ ", " ++ pyReprElems rest
end

/-- Python `str()` as used by f-string interpolation: a string formats as
itself, everything else as its `repr`. -/
def pyStr : PyVal → String
  | .str s => s
  | v => pyRepr v

/-- Python `v.get(k)`: returns `some` of the stored value when `v` is a
dict containing key `k`, `Except.ok none` when the key is absent, and
raises (`Except.error`, modelling `AttributeError`) when `v` is not a
dict. -/
def pyGet? (v : PyVal) (k : String) : Except Unit (Option PyVal) :=
  match v with
  | .dict d => .ok (d.lookup k)
  | _ => .error ()

/-- `extract_event_datetime` (src/Ticket_Master.py lines 47-67):

    start = ev.get("dates", \x7b\x7d).get("start", \x7b\x7d)
    if start.get("dateTime"):
        return start["dateTime"]
    local_date = start.get("localDate")
    local_time = start.get("localTime") or "00:00:00"
    return f"\x7blocal_date\x7dT\x7blocal_time\x7d" if local_date else ""
-/
def extract_event_datetime (ev : PyVal) : Except Unit PyVal :=
  match pyGet? ev "dates" with
  | .error e => .error e
  | .ok d0 =>
    let dates := d0.getD (.dict [])
    match pyGet? dates "start" with
    | .error e => .error e
    | .ok s0 =>
      let start := s0.getD (.dict [])
      match pyGet? start "dateTime" with
      | .error e => .error e
      | .ok dt0 =>
        let dt := dt0.getD .none
        if truthy dt then .ok dt
        else
          match pyGet? start "localDate" with
          | .error e => .error e
          | .ok ld0 =>
            let local_date := ld0.getD .none
            match pyGet? start "localTime" with
            | .error e => .error e
            | .ok lt0 =>
              let local_time := pyOr (lt0.getD .none) (.str "00:00:00")
              if truthy local_date then
                .ok (.str (pyStr local_date ++ "T" ++ pyStr local_time))
              else
                .ok (.str "")

example : extract_event_datetime (.dict [("dates", .dict [("start",
    .dict [("dateTime", .str "2025-10-05T19:00:00Z")])])])
    = .ok (.str "2025-10-05T19:00:00Z") := rfl

example : extract_event_datetime (.dict [("dates", .dict [("start",
    .dict [("localDate", .str "2025-10-06")])])])
    = .ok (.str "2025-10-06T00:00:00") := rfl

example : extract_event_datetime (.dict []) = .ok (.str "") := rfl

example : extract_event_datetime (.dict [("dates", .str "oops")]) = .error () := rfl

/-- Query parameters: an ordered mapping of string keys to string values,
as built by `get_params` and passed to `requests.get`. -/
abbrev QueryParams := List (String × String)

/-- `get_params` (src/Ticket_Master.py lines 5-30): builds the query
parameter dictionary, in insertion order. -/
def get_params (api_key startDateTime endDateTime city countryCode : String)
    (size : Nat) (sort : String) : QueryParams :=
  [("apikey", api_key),
   ("city", city),
   ("countryCode", countryCode),
   ("startDateTime", startDateTime),
   ("endDateTime", endDateTime),
   ("size", toString size),
   ("sort", sort)]

/-- A Python `datetime` value, to the precision `strftime` consumes here. -/
structure PyDatetime where
  year : Nat
  month : Nat
  day : Nat
  hour : Nat
  minute : Nat
  second : Nat

/-- Zero-pad a numeral to two digits (strftime `%m`, `%d`, `%H`, `%M`, `%S`). -/
def pad2 (n : Nat) : String :=
  if n < 10 then "0" ++ toString n else toString n

/-- Zero-pad a numeral to four digits (strftime `%Y`). -/
def pad4 (n : Nat) : String :=
  if n < 10 then "000" ++ toString n
  else if n < 100 then "00" ++ toString n
  else if n < 1000 then "0" ++ toString n
  else toString n

/-- `get_iso_date` (src/Ticket_Master.py lines 33-44):
`dt.strftime("%Y-%m-%dT%H:%M:%SZ")`. -/
def get_iso_date (dt : PyDatetime) : String :=
  pad4 dt.year ++ "-" ++ pad2 dt.month ++ "-" ++ pad2 dt.day ++ "T" ++
    pad2 dt.hour ++ ":" ++ pad2 dt.minute ++ ":" ++ pad2 dt.second ++ "Z"

/-- One scripted HTTP response: status code, raw body text (used in the
error message), and the parsed JSON body (`resp.json()`). -/
structure Response where
  status_code : Nat
  text : String
  json : PyVal

/-- One observable effect of `fetch_all_events_to_csv`, in order:
opening the output file, writing the CSV header row
`["event_name", "event_datetime"]`, issuing an HTTP GET (with the query
parameters passed, `none` = Python `params=None`), writing one event row,
raising `RuntimeError(f"API error ...")` with the status and body text,
or raising a Python-level `AttributeError`/`TypeError` on a malformed
payload. -/
inductive Ev where
  | openFile : String → Ev
  | writeHeader : Ev
  | request : String → Option QueryParams → Ev
  | writeRow : PyVal → PyVal → Ev
  | raiseError : Nat → String → Ev
  | typeError : Ev
  | exhausted : Ev

/-- `data.get("_embedded", \x7b\x7d).get("events", [])`
(src/Ticket_Master.py line 124). -/
def eventsOf (data : PyVal) : Except Unit PyVal :=
  match pyGet? data "_embedded" with
  | .error e => .error e
  | .ok e0 =>
    let emb := e0.getD (.dict [])
    match pyGet? emb "events" with
    | .error e => .error e
    | .ok v0 => .ok (v0.getD (.list []))

/-- `data.get("_links", \x7b\x7d).get("next", \x7b\x7d).get("href")`
(src/Ticket_Master.py lines 130-132); the resulting value is the new
`next_url` (`PyVal.none` models Python `None` when absent). -/
def nextOf (data : PyVal) : Except Unit PyVal :=
  match pyGet? data "_links" with
  | .error e => .error e
  | .ok l0 =>
    let links := l0.getD (.dict [])
    match pyGet? links "next" with
    | .error e => .error e
    | .ok n0 =>
      let next_link := n0.getD (.dict [])
      match pyGet? next_link "href" with
      | .error e => .error e
      | .ok h0 => .ok (h0.getD .none)

/-- The loop body for one event (src/Ticket_Master.py lines 126-128):
`name = ev.get("name", "")`, `when = extract_event_datetime(ev)`; the pair
is the CSV row written. -/
def rowOf (ev : PyVal) : Except Unit (PyVal × PyVal) :=
  match pyGet? ev "name" with
  | .error e => .error e
  | .ok n0 =>
    let name := n0.getD (.str "")
    match extract_event_datetime ev with
    | .error e => .error e
    | .ok w => .ok (name, w)

/-- Whether an `Except` computation succeeded. -/
def exOk {α : Type} : Except Unit α → Bool
  | .ok _ => true
  | .error _ => false

/-- Python `for ev in events`: a list iterates its elements, a dict its
keys, a string its characters; iterating `None` is a `TypeError`. -/
def pyIter : PyVal → Option (List PyVal)
  | .list l => some l
  | .dict d => some (d.map fun kv => .str kv.1)
  | .str s => some (s.toList.map fun c => .str (String.singleton c))
  | .none => Option.none

/-- Trace of the `for ev in events` loop: one row per event, stopping with
the raised error if a row computation raises. -/
def writeEvents : List PyVal → List Ev
  | [] => []
  | ev :: rest =>
    match rowOf ev with
    | .error _ => [Ev.typeError]
    | .ok nw => Ev.writeRow nw.1 nw.2 :: writeEvents rest

/-- Whether every event of the page yields a row without raising. -/
def rowsOk (l : List PyVal) : Bool :=
  l.all fun ev => exOk (rowOf ev)

/-- The `while next_url` loop (src/Ticket_Master.py lines 107-133),
answering the i-th request with the i-th scripted response.  `params` is
attached only when `next_url == root` (line 109) and is set to `None`
after the first iteration (line 133).  If the script runs out while the
loop still wants a request, the trace ends with the marker `Ev.exhausted`
(a model artifact distinguishing this from the loop stopping). -/
def fetchLoop (root : String) (params : Option QueryParams) (next_url : PyVal) :
    List Response → List Ev
  | [] => if truthy next_url then [Ev.exhausted] else []
  | r :: rest =>
    if truthy next_url then
      (match next_url with
      | .str u =>
        Ev.request u (if u == root then params else Option.none) ::
        (if r.status_code ≠ 200 then [Ev.raiseError r.status_code r.text]
         else
           match eventsOf r.json with
           | .error _ => [Ev.typeError]
           | .ok evs =>
             match pyIter evs with
             | Option.none => [Ev.typeError]
             | some l =>
               writeEvents l ++
               (if rowsOk l then
                  (match nextOf r.json with
                   | .error _ => [Ev.typeError]
                   | .ok nv => fetchLoop root Option.none nv rest)
                else []))
      | _ => [Ev.typeError])
    else []

/-- The fixed discovery endpoint (src/Ticket_Master.py line 91). -/
def ROOT : String := "https://app.ticketmaster.com/discovery/v2/events.json"

/-- `fetch_all_events_to_csv` (src/Ticket_Master.py lines 70-133), as the
trace of observable effects when the HTTP layer is scripted by `resps`:
build the parameters, open the output file, write the header row, then
run the pagination loop starting from `ROOT`. -/
def fetch_all_events_to_csv (api_key city country : String)
    (start endDt : PyDatetime) (out_csv : String) (resps : List Response) :
    List Ev :=
  let params := get_params api_key (get_iso_date start) (get_iso_date endDt)
    city country 200 "date,asc"
  Ev.openFile out_csv :: Ev.writeHeader :: fetchLoop ROOT (some params) (.str ROOT) resps

/-- The row event an event record produces (its CSV row, or the raised
error), used to state trace equalities. -/
def rowEv (ev : PyVal) : Ev :=
  match rowOf ev with
  | .ok nw => Ev.writeRow nw.1 nw.2
  | .error _ => Ev.typeError

/-- Whether a trace event is an HTTP request. -/
def isRequest : Ev → Bool
  | .request _ _ => true
  | _ => false

/-- Whether a trace event is the opening of the output file. -/
def isOpen : Ev → Bool
  | .openFile _ => true
  | _ => false

/-- Whether a trace event is the CSV header write. -/
def isHeaderEv : Ev → Bool
  | .writeHeader => true
  | _ => false

/-- Whether a trace event is an event-row write. -/
def isRowEv : Ev → Bool
  | .writeRow _ _ => true
  | _ => false

/-- Whether a trace event is the script-exhausted model marker. -/
def isStop : Ev → Bool
  | .exhausted => true
  | _ => false

/-- Whether a trace event is the `RuntimeError` raise. -/
def isRaise : Ev → Bool
  | .raiseError _ _ => true
  | _ => false

/-- Whether a trace event is a Python-level type/attribute error. -/
def isTypeErr : Ev → Bool
  | .typeError => true
  | _ => false

/-- The requests of a trace, each with the parameters it carried. -/
def requestsOf (tr : List Ev) : List (String × Option QueryParams) :=
  tr.filterMap fun e =>
    match e with
    | .request u p => some (u, p)
    | _ => Option.none

/-- C2: for every event record whose `dates.start` structure contains a
full timestamp field `dateTime` (present with a truthy value, the check of
src/Ticket_Master.py line 63), `extract_event_datetime` returns that value
unchanged. -/
theorem C2_dateTime_returned_unchanged
    (dd dd2 ss : List (String × PyVal)) (dt : PyVal)
    (hd : dd.lookup "dates" = some (.dict dd2))
    (hs : dd2.lookup "start" = some (.dict ss))
    (hdt : ss.lookup "dateTime" = some dt)
    (htr : truthy dt = true) :
    extract_event_datetime (.dict dd) = .ok dt := by
  simp [extract_event_datetime, pyGet?, hd, hs, hdt, htr]

/-- C2 witness: a concrete record with a full timestamp. -/
theorem C2_dateTime_returned_unchanged_witness :
    ([("dates", PyVal.dict [("start", PyVal.dict [("dateTime", PyVal.str "2025-10-05T19:00:00Z")])])].lookup "dates"
        = some (.dict [("start", PyVal.dict [("dateTime", PyVal.str "2025-10-05T19:00:00Z")])]))
    ∧ truthy (.str "2025-10-05T19:00:00Z") = true
    ∧ extract_event_datetime (.dict [("dates", PyVal.dict [("start", PyVal.dict [("dateTime", PyVal.str "2025-10-05T19:00:00Z")])])])
        = .ok (.str "2025-10-05T19:00:00Z") :=
  ⟨rfl, rfl,
    C2_dateTime_returned_unchanged _ _ _ _ rfl rfl rfl rfl⟩

/-- C3: for every event record lacking a full timestamp (the `dateTime`
value is absent or falsy) but containing a local date field (a nonempty
string), `extract_event_datetime` returns
`localDate ++ "T" ++ (localTime or "00:00:00")`, the local time defaulting
to midnight when absent (or falsy, Python `or` semantics). -/
theorem C3_localDate_fallback
    (dd dd2 ss : List (String × PyVal)) (d : String)
    (hd : dd.lookup "dates" = some (.dict dd2))
    (hs : dd2.lookup "start" = some (.dict ss))
    (hdt : truthy ((ss.lookup "dateTime").getD .none) = false)
    (hld : ss.lookup "localDate" = some (.str d))
    (hdne : d ≠ "")
    (_hlt : ss.lookup "localTime" = Option.none
        ∨ ∃ t : String, ss.lookup "localTime" = some (.str t)) :
    extract_event_datetime (.dict dd)
      = .ok (.str (d ++ "T" ++ pyStr (pyOr ((ss.lookup "localTime").getD .none) (.str "00:00:00")))) := by
  have hde : d.isEmpty = false := by
    cases h : d.isEmpty
    · rfl
    · exact absurd ((String.isEmpty_iff d).mp h) hdne
  have htd : truthy (.str d) = true := by
    simp [truthy, hde]
  simp [extract_event_datetime, pyGet?, hd, hs, hdt, hld, htd, pyStr]

/-- C3 witness: a concrete record with only a local date; the time defaults
to midnight. -/
theorem C3_localDate_fallback_witness :
    ([("localDate", PyVal.str "2025-10-06")].lookup "localDate" = some (.str "2025-10-06"))
    ∧ ("2025-10-06" : String) ≠ ""
    ∧ extract_event_datetime (.dict [("dates", PyVal.dict [("start", PyVal.dict [("localDate", PyVal.str "2025-10-06")])])])
        = .ok (.str ("2025-10-06" ++ "T" ++ pyStr (pyOr (([("localDate", PyVal.str "2025-10-06")].lookup "localTime").getD .none) (.str "00:00:00")))) :=
  ⟨rfl, by decide,
    C3_localDate_fallback _ _ _ _ rfl rfl rfl rfl (by decide) (Or.inl rfl)⟩

/-- C7: for every event record in which the dates structure, its nested
start structure, or any of the date sub-fields is missing (each present
level being a dict), `extract_event_datetime` does not raise: the missing
level is treated as absent and evaluation falls through the precedence
tiers. -/
theorem C7_missing_levels_do_not_raise
    (dd : List (String × PyVal))
    (h : dd.lookup "dates" = Option.none
      ∨ ∃ dd2, dd.lookup "dates" = some (.dict dd2)
          ∧ (dd2.lookup "start" = Option.none
            ∨ ∃ ss, dd2.lookup "start" = some (.dict ss))) :
    exOk (extract_event_datetime (.dict dd)) = true := by
  rcases h with h | ⟨dd2, hd, h2⟩
  · simp [extract_event_datetime, pyGet?, h, exOk, truthy]
  · rcases h2 with h2 | ⟨ss, hs⟩
    · simp [extract_event_datetime, pyGet?, hd, h2, exOk, truthy]
    · simp only [extract_event_datetime, pyGet?, hd, hs, Option.getD_some]
      split
      · rfl
      · split
        · rfl
        · rfl

/-- C7 witness: a record with no dates structure at all. -/
theorem C7_missing_levels_do_not_raise_witness :
    (([] : List (String × PyVal)).lookup "dates" = Option.none)
    ∧ exOk (extract_event_datetime (.dict [])) = true :=
  ⟨rfl, C7_missing_levels_do_not_raise [] (Or.inl rfl)⟩

/-- The root endpoint is a nonempty string, hence truthy. -/
theorem truthy_ROOT : truthy (.str ROOT) = true := by decide

/-- C4: for every first response whose status code is not 200,
`fetch_all_events_to_csv` raises the error carrying the status code and the
raw response body, issues no further request (whatever responses remain
scripted), and writes zero event rows: the trace holds only the file open,
the header write, the single request, and the raise. -/
theorem C4_non_200_aborts (ak c co : String) (s e : PyDatetime) (out : String)
    (r : Response) (rest : List Response) (hs : r.status_code ≠ 200) :
    fetch_all_events_to_csv ak c co s e out (r :: rest) =
      [Ev.openFile out, Ev.writeHeader,
       Ev.request ROOT (some (get_params ak (get_iso_date s) (get_iso_date e) c co 200 "date,asc")),
       Ev.raiseError r.status_code r.text] := by
  simp [fetch_all_events_to_csv, fetchLoop, truthy_ROOT, hs]

/-- C4 witness: a concrete 404 response followed by a spare scripted page
that is never requested. -/
theorem C4_non_200_aborts_witness :
    ((404 : Nat) ≠ 200)
    ∧ fetch_all_events_to_csv "k" "Calgary" "CA" ⟨2025, 10, 1, 0, 0, 0⟩ ⟨2025, 12, 1, 0, 0, 0⟩ "events.csv"
        [⟨404, "Not Found", .dict []⟩, ⟨200, "", .dict []⟩] =
      [Ev.openFile "events.csv", Ev.writeHeader,
       Ev.request ROOT (some (get_params "k" (get_iso_date ⟨2025, 10, 1, 0, 0, 0⟩) (get_iso_date ⟨2025, 12, 1, 0, 0, 0⟩) "Calgary" "CA" 200 "date,asc")),
       Ev.raiseError 404 "Not Found"] :=
  ⟨by decide,
    C4_non_200_aborts "k" "Calgary" "CA" ⟨2025, 10, 1, 0, 0, 0⟩ ⟨2025, 12, 1, 0, 0, 0⟩ "events.csv"
      ⟨404, "Not Found", .dict []⟩ [⟨200, "", .dict []⟩] (by decide)⟩

/-- C5: for every event record lacking both a full timestamp and a local
date (both values absent or falsy in the `dates.start` dict),
`extract_event_datetime` returns the empty string, and on a single-page
run containing just that event the exporter still writes one row for it,
with the empty string in the date-time field, rather than skipping it. -/
theorem C5_no_date_event_still_written
    (ak c co : String) (s e : PyDatetime) (out : String)
    (dd dd2 ss : List (String × PyVal)) (r : Response) (nv : PyVal)
    (hd : dd.lookup "dates" = some (.dict dd2))
    (hst : dd2.lookup "start" = some (.dict ss))
    (hdt : truthy ((ss.lookup "dateTime").getD .none) = false)
    (hld : truthy ((ss.lookup "localDate").getD .none) = false)
    (hr : r.status_code = 200)
    (hre : eventsOf r.json = .ok (.list [PyVal.dict dd]))
    (hrn : nextOf r.json = .ok nv)
    (hnv : truthy nv = false) :
    extract_event_datetime (.dict dd) = .ok (.str "")
    ∧ fetch_all_events_to_csv ak c co s e out [r] =
        [Ev.openFile out, Ev.writeHeader,
         Ev.request ROOT (some (get_params ak (get_iso_date s) (get_iso_date e) c co 200 "date,asc")),
         Ev.writeRow ((dd.lookup "name").getD (.str "")) (.str "")] := by
  have hx : extract_event_datetime (.dict dd) = .ok (.str "") := by
    simp [extract_event_datetime, pyGet?, hd, hst, hdt, hld]
  refine ⟨hx, ?_⟩
  have hrow : rowOf (.dict dd) = .ok ((dd.lookup "name").getD (.str ""), .str "") := by
    simp [rowOf, pyGet?, hx]
  simp [fetch_all_events_to_csv, fetchLoop, truthy_ROOT, hr, hre, pyIter,
    writeEvents, rowsOk, exOk, hrow, hrn, hnv]

/-- C5 witness: a concrete event with a name and an empty `dates.start`
dict; the run writes its row with an empty date-time field. -/
theorem C5_no_date_event_still_written_witness :
    truthy ((([("name", PyVal.str "Mystery")] : List (String × PyVal)).lookup "localDate").getD .none) = false
    ∧ extract_event_datetime (.dict [("name", PyVal.str "Mystery"), ("dates", .dict [("start", .dict [])])]) = .ok (.str "")
    ∧ fetch_all_events_to_csv "k" "Calgary" "CA" ⟨2025, 10, 1, 0, 0, 0⟩ ⟨2025, 12, 1, 0, 0, 0⟩ "events.csv"
        [⟨200, "", .dict [("_embedded", .dict [("events",
            .list [.dict [("name", PyVal.str "Mystery"), ("dates", .dict [("start", .dict [])])]])])]⟩] =
      [Ev.openFile "events.csv", Ev.writeHeader,
       Ev.request ROOT (some (get_params "k" (get_iso_date ⟨2025, 10, 1, 0, 0, 0⟩) (get_iso_date ⟨2025, 12, 1, 0, 0, 0⟩) "Calgary" "CA" 200 "date,asc")),
       Ev.writeRow (.str "Mystery") (.str "")] := by
  refine ⟨rfl, ?_⟩
  have h := C5_no_date_event_still_written "k" "Calgary" "CA"
    ⟨2025, 10, 1, 0, 0, 0⟩ ⟨2025, 12, 1, 0, 0, 0⟩ "events.csv"
    [("name", PyVal.str "Mystery"), ("dates", .dict [("start", .dict [])])] [("start", .dict [])] []
    ⟨200, "", .dict [("_embedded", .dict [("events",
        .list [.dict [("name", PyVal.str "Mystery"), ("dates", .dict [("start", .dict [])])]])])]⟩
    .none rfl rfl rfl rfl rfl rfl rfl rfl
  exact ⟨h.1, h.2⟩

/-- A nonempty string is truthy. -/
theorem truthy_str_of_ne (u : String) (h : u ≠ "") : truthy (.str u) = true := by
  have hue : u.isEmpty = false := by
    cases he : u.isEmpty
    · rfl
    · exact absurd ((String.isEmpty_iff u).mp he) h
  simp [truthy, hue]

/-- When every row computation of a page succeeds, the page's trace is one
`writeRow` per event, in order. -/
theorem writeEvents_of_rowsOk (l : List PyVal) (h : rowsOk l = true) :
    writeEvents l = l.map rowEv := by
  induction l with
  | nil => rfl
  | cons ev rest ih =>
    simp only [rowsOk, List.all_cons, Bool.and_eq_true] at h
    obtain ⟨h1, h2⟩ := h
    cases hro : rowOf ev with
    | error e => rw [hro] at h1; simp [exOk] at h1
    | ok nw => simp [writeEvents, hro, rowEv, ih h2]

/-- A row event is never a request. -/
theorem isRequest_rowEv (ev : PyVal) : isRequest (rowEv ev) = false := by
  cases hro : rowOf ev <;> simp [rowEv, hro, isRequest]

/-- Row events contribute no requests to the trace. -/
theorem countP_requests_map_rowEv (l : List PyVal) :
    (l.map rowEv).countP (fun ev => isRequest ev) = 0 := by
  refine List.countP_eq_zero.mpr ?_
  intro e he
  obtain ⟨ev, _, rfl⟩ := List.mem_map.mp he
  simp [isRequest_rowEv]

/-- C1: for every simulated two-page response sequence where page 1
carries a next link (a nonempty href string) and page 2 carries none (its
href value is falsy), `fetch_all_events_to_csv` issues exactly two
requests and writes the rows of both pages in upstream order, then stops
(the trace ends; no exhausted-script marker, error, or further request). -/
theorem C1_two_page_export
    (ak c co : String) (s e : PyDatetime) (out : String)
    (r1 r2 : Response) (l1 l2 : List PyVal) (url2 : String) (nv2 : PyVal)
    (h1s : r1.status_code = 200)
    (h1e : eventsOf r1.json = .ok (.list l1))
    (h1r : rowsOk l1 = true)
    (h1n : nextOf r1.json = .ok (.str url2))
    (hu2 : url2 ≠ "")
    (h2s : r2.status_code = 200)
    (h2e : eventsOf r2.json = .ok (.list l2))
    (h2r : rowsOk l2 = true)
    (h2n : nextOf r2.json = .ok nv2)
    (hnf : truthy nv2 = false) :
    fetch_all_events_to_csv ak c co s e out [r1, r2] =
      Ev.openFile out :: Ev.writeHeader ::
        Ev.request ROOT (some (get_params ak (get_iso_date s) (get_iso_date e) c co 200 "date,asc")) ::
        (l1.map rowEv ++ Ev.request url2 Option.none :: l2.map rowEv)
    ∧ (fetch_all_events_to_csv ak c co s e out [r1, r2]).countP (fun ev => isRequest ev) = 2 := by
  have htrace : fetch_all_events_to_csv ak c co s e out [r1, r2] =
      Ev.openFile out :: Ev.writeHeader ::
        Ev.request ROOT (some (get_params ak (get_iso_date s) (get_iso_date e) c co 200 "date,asc")) ::
        (l1.map rowEv ++ Ev.request url2 Option.none :: l2.map rowEv) := by
    simp [fetch_all_events_to_csv, fetchLoop, truthy_ROOT, h1s, h1e, pyIter,
      writeEvents_of_rowsOk l1 h1r, h1r, h1n, truthy_str_of_ne url2 hu2,
      h2s, h2e, writeEvents_of_rowsOk l2 h2r, h2r, h2n, hnf]
  refine ⟨htrace, ?_⟩
  rw [htrace]
  simp only [List.countP_cons, List.countP_append, countP_requests_map_rowEv]
  simp [isRequest]

/-- The event of page 1 used in the C1 witness. -/
def wEvA : PyVal :=
  .dict [("name", .str "Show A"),
         ("dates", .dict [("start", .dict [("dateTime", .str "2025-10-05T19:00:00Z")])])]

/-- The event of page 2 used in the C1 witness. -/
def wEvB : PyVal :=
  .dict [("name", .str "Show B"),
         ("dates", .dict [("start", .dict [("localDate", .str "2025-10-06")])])]

/-- Page 1 of the C1 witness: one event and a next link. -/
def wResp1 : Response :=
  ⟨200, "",
   .dict [("_embedded", .dict [("events", .list [wEvA])]),
          ("_links", .dict [("next", .dict [("href", .str "https://app.ticketmaster.com/discovery/v2/events.json?page=1")])])]⟩

/-- Page 2 of the C1 witness: one event and no links structure. -/
def wResp2 : Response :=
  ⟨200, "", .dict [("_embedded", .dict [("events", .list [wEvB])])]⟩

/-- C1 witness: a concrete two-page script; both rows appear in order
between the two requests and the trace stops after page 2. -/
theorem C1_two_page_export_witness :
    rowsOk [wEvA] = true
    ∧ rowsOk [wEvB] = true
    ∧ ("https://app.ticketmaster.com/discovery/v2/events.json?page=1" : String) ≠ ""
    ∧ nextOf wResp2.json = .ok .none
    ∧ fetch_all_events_to_csv "k" "Calgary" "CA" ⟨2025, 10, 1, 0, 0, 0⟩ ⟨2025, 12, 1, 0, 0, 0⟩ "events.csv"
        [wResp1, wResp2] =
      Ev.openFile "events.csv" :: Ev.writeHeader ::
        Ev.request ROOT (some (get_params "k" (get_iso_date ⟨2025, 10, 1, 0, 0, 0⟩) (get_iso_date ⟨2025, 12, 1, 0, 0, 0⟩) "Calgary" "CA" 200 "date,asc")) ::
        ([wEvA].map rowEv ++ Ev.request "https://app.ticketmaster.com/discovery/v2/events.json?page=1" Option.none :: [wEvB].map rowEv) :=
  ⟨rfl, rfl, by decide, rfl,
    (C1_two_page_export "k" "Calgary" "CA" ⟨2025, 10, 1, 0, 0, 0⟩ ⟨2025, 12, 1, 0, 0, 0⟩ "events.csv"
      wResp1 wResp2 [wEvA] [wEvB]
      "https://app.ticketmaster.com/discovery/v2/events.json?page=1" .none
      rfl rfl rfl rfl (by decide) rfl rfl rfl rfl rfl).1⟩

/-- The row-writing loop issues no HTTP requests. -/
theorem requestsOf_writeEvents (l : List PyVal) : requestsOf (writeEvents l) = [] := by
  induction l with
  | nil => rfl
  | cons ev rest ih =>
    cases hro : rowOf ev with
    | error e0 => simp [writeEvents, hro, requestsOf, List.filterMap_cons]
    | ok nw =>
      simp only [writeEvents, hro, requestsOf, List.filterMap_cons]
      exact ih

/-- Requests issued by the loop once `params` has been reset to `None`
carry no query parameters, even when the continuation link equals the
root endpoint (line 109's `params if next_url == ROOT else None` then
selects the already-reset `None`). -/
theorem fetchLoop_params_none (resps : List Response) :
    ∀ (root : String) (nv : PyVal),
      ∀ p ∈ requestsOf (fetchLoop root Option.none nv resps), p.2 = Option.none := by
  induction resps with
  | nil =>
    intro root nv p hp
    simp only [fetchLoop] at hp
    split at hp <;> simp [requestsOf] at hp
  | cons r rest ih =>
    intro root nv p hp
    simp only [fetchLoop] at hp
    by_cases ht : truthy nv = true
    · rw [if_pos ht] at hp
      cases nv with
      | str u =>
        simp only [requestsOf, List.filterMap_cons, ite_self] at hp
        rcases List.mem_cons.mp hp with hp | hp
        · rw [hp]
        · by_cases hsc : r.status_code ≠ 200
          · rw [if_pos hsc] at hp
            simp [List.filterMap] at hp
          · rw [if_neg hsc] at hp
            cases he : eventsOf r.json with
            | error e0 => simp only [he] at hp; simp [List.filterMap] at hp
            | ok evs =>
              simp only [he] at hp
              cases hi : pyIter evs with
              | none => simp only [hi] at hp; simp [List.filterMap] at hp
              | some l =>
                simp only [hi] at hp
                simp only [List.filterMap_append] at hp
                rcases List.mem_append.mp hp with hp | hp
                · have hmem : p ∈ requestsOf (writeEvents l) := hp
                  rw [requestsOf_writeEvents] at hmem
                  exact absurd hmem (List.not_mem_nil p)
                · by_cases hro : rowsOk l = true
                  · rw [if_pos hro] at hp
                    cases hn : nextOf r.json with
                    | error e0 => rw [hn] at hp; simp [List.filterMap] at hp
                    | ok nv2 =>
                      rw [hn] at hp
                      exact ih root nv2 p hp
                  · rw [if_neg hro] at hp
                    simp [List.filterMap] at hp
      | none => simp [requestsOf, List.filterMap] at hp
      | dict d => simp [requestsOf, List.filterMap] at hp
      | list l => simp [requestsOf, List.filterMap] at hp
    · rw [if_neg ht] at hp
      simp [requestsOf] at hp

/-- Membership in a list's tail implies membership in the list. -/
theorem mem_of_tail_mem {α : Type} (l : List α) (a : α) (h : a ∈ l.tail) : a ∈ l := by
  cases l with
  | nil => simp at h
  | cons b t => exact List.mem_cons_of_mem b h

/-- The query-parameter argument only affects the first recorded request:
the tails of the request lists agree whatever parameters the call holds
(the loop body never mentions them again and recurses with `None`). -/
theorem requestsOf_tail_params_irrel (root : String) (params : Option QueryParams)
    (nv : PyVal) (resps : List Response) :
    (requestsOf (fetchLoop root params nv resps)).tail
      = (requestsOf (fetchLoop root Option.none nv resps)).tail := by
  cases resps with
  | nil => rfl
  | cons r rest =>
    simp only [fetchLoop]
    split
    · cases nv with
      | str u => simp [requestsOf, List.filterMap_cons]
      | none => rfl
      | dict d => rfl
      | list l => rfl
    · rfl

/-- C6: the built parameters are attached to the first request only (the
head of the request list is the root endpoint with the parameters built by
`get_params`), and every request after the first carries `params=None` —
including when the server-supplied continuation link is string-equal to
the root endpoint URL, since line 133 has already reset `params` to
`None`. -/
theorem C6_params_attached_only_to_first_request
    (ak c co : String) (s e : PyDatetime) (out : String)
    (r : Response) (rest : List Response) :
    (requestsOf (fetch_all_events_to_csv ak c co s e out (r :: rest))).head?
        = some (ROOT, some (get_params ak (get_iso_date s) (get_iso_date e) c co 200 "date,asc"))
    ∧ ∀ p ∈ (requestsOf (fetch_all_events_to_csv ak c co s e out (r :: rest))).tail,
        p.2 = Option.none := by
  constructor
  · simp [fetch_all_events_to_csv, fetchLoop, truthy_ROOT, requestsOf, List.filterMap_cons]
  · intro p hp
    have h1 : requestsOf (fetch_all_events_to_csv ak c co s e out (r :: rest))
        = requestsOf (fetchLoop ROOT
            (some (get_params ak (get_iso_date s) (get_iso_date e) c co 200 "date,asc"))
            (.str ROOT) (r :: rest)) := by
      simp [fetch_all_events_to_csv, requestsOf, List.filterMap_cons]
    rw [h1, requestsOf_tail_params_irrel] at hp
    exact fetchLoop_params_none (r :: rest) ROOT (.str ROOT) p
      (mem_of_tail_mem _ p hp)

/-- C9: a successful response with zero events (including the case of no
embedded-events field at all, where line 124 defaults to the empty list)
raises no error and writes no event rows; the loop simply records the
request and continues as dictated solely by the extracted next-link value
`nv`, independent of the event count. -/
theorem C9_zero_events_page_not_an_error
    (params : Option QueryParams) (u : String) (r : Response)
    (rest : List Response) (nv : PyVal)
    (hu : u ≠ "")
    (hs : r.status_code = 200)
    (he : eventsOf r.json = .ok (.list []))
    (hn : nextOf r.json = .ok nv) :
    fetchLoop ROOT params (.str u) (r :: rest) =
      Ev.request u (if u == ROOT then params else Option.none)
        :: fetchLoop ROOT Option.none nv rest := by
  simp [fetchLoop, truthy_str_of_ne u hu, hs, he, pyIter, writeEvents, rowsOk, hn]

/-- C9 witness: a 200 response whose body is an empty dict (no embedded
events, no links); the loop continues with the falsy next value and stops. -/
theorem C9_zero_events_page_not_an_error_witness :
    (ROOT ≠ "")
    ∧ eventsOf (PyVal.dict []) = .ok (.list [])
    ∧ nextOf (PyVal.dict []) = .ok .none
    ∧ fetchLoop ROOT Option.none (.str ROOT) [⟨200, "ok", .dict []⟩] =
        Ev.request ROOT (if ROOT == ROOT then Option.none else Option.none)
          :: fetchLoop ROOT Option.none .none [] :=
  ⟨by decide, rfl, rfl,
    C9_zero_events_page_not_an_error Option.none ROOT ⟨200, "ok", .dict []⟩ [] .none
      (by decide) rfl rfl rfl⟩

/-- Every page trace splits into the rows actually written (all `writeRow`
events) followed, when some row computation raised, by the error. -/
theorem writeEvents_rows (l : List PyVal) :
    ∃ rows, (∀ e ∈ rows, isRowEv e = true)
      ∧ ((rowsOk l = true ∧ writeEvents l = rows)
        ∨ (rowsOk l = false ∧ writeEvents l = rows ++ [Ev.typeError])) := by
  induction l with
  | nil => exact ⟨[], by simp, Or.inl ⟨rfl, rfl⟩⟩
  | cons ev rest ih =>
    cases hro : rowOf ev with
    | error e0 =>
      refine ⟨[], by simp, Or.inr ⟨?_, ?_⟩⟩
      · simp [rowsOk, List.all_cons, exOk, hro]
      · simp [writeEvents, hro]
    | ok nw =>
      obtain ⟨rows, hrows, hcase⟩ := ih
      rcases hcase with ⟨hok, hw⟩ | ⟨hok, hw⟩
      · refine ⟨Ev.writeRow nw.1 nw.2 :: rows, ?_, Or.inl ⟨?_, ?_⟩⟩
        · intro e he
          rcases List.mem_cons.mp he with rfl | he
          · simp [isRowEv]
          · exact hrows e he
        · simpa [rowsOk, List.all_cons, exOk, hro] using hok
        · simp [writeEvents, hro, hw]
      · refine ⟨Ev.writeRow nw.1 nw.2 :: rows, ?_, Or.inr ⟨?_, ?_⟩⟩
        · intro e he
          rcases List.mem_cons.mp he with rfl | he
          · simp [isRowEv]
          · exact hrows e he
        · simpa [rowsOk, List.all_cons, exOk, hro] using hok
        · simp [writeEvents, hro, hw]

/-- The shape invariant of the loop trace: it is a sequence of page
blocks, each a request followed by that page's row writes, ending in
normal exit, the exhausted-script marker, a raised API error, or a raised
Python-level error.  In particular every page's rows are written before
the next page's request is issued. -/
inductive PageShaped : List Ev → Prop where
  | done : PageShaped []
  | exhausted : PageShaped [Ev.exhausted]
  | typeErr : PageShaped [Ev.typeError]
  | fail (u : String) (ps : Option QueryParams) (st : Nat) (t : String) :
      PageShaped [Ev.request u ps, Ev.raiseError st t]
  | page (u : String) (ps : Option QueryParams) (rows rest : List Ev)
      (hrows : ∀ e ∈ rows, isRowEv e = true) (h : PageShaped rest) :
      PageShaped (Ev.request u ps :: (rows ++ rest))

/-- The loop trace always satisfies the page-block shape invariant. -/
theorem fetchLoop_pageShaped (resps : List Response) :
    ∀ (root : String) (params : Option QueryParams) (nv : PyVal),
      PageShaped (fetchLoop root params nv resps) := by
  induction resps with
  | nil =>
    intro root params nv
    simp only [fetchLoop]
    split
    · exact PageShaped.exhausted
    · exact PageShaped.done
  | cons r rest ih =>
    intro root params nv
    simp only [fetchLoop]
    split
    · cases nv with
      | none => exact PageShaped.typeErr
      | dict d => exact PageShaped.typeErr
      | list l => exact PageShaped.typeErr
      | str u =>
        simp only []
        by_cases hsc : r.status_code ≠ 200
        · rw [if_pos hsc]
          exact PageShaped.fail u _ r.status_code r.text
        · rw [if_neg hsc]
          cases he : eventsOf r.json with
          | error e0 =>
            simp only []
            have h := PageShaped.page u
              (if (u == root) = true then params else Option.none)
              [] [Ev.typeError] (by simp) PageShaped.typeErr
            simpa using h
          | ok evs =>
            simp only []
            cases hi : pyIter evs with
            | none =>
              simp only []
              have h := PageShaped.page u
                (if (u == root) = true then params else Option.none)
                [] [Ev.typeError] (by simp) PageShaped.typeErr
              simpa using h
            | some l =>
              simp only []
              obtain ⟨rows, hrows, hcase⟩ := writeEvents_rows l
              rcases hcase with ⟨hok, hw⟩ | ⟨hok, hw⟩
              · rw [hw, if_pos hok]
                cases hn : nextOf r.json with
                | error e0 =>
                  simp only []
                  exact PageShaped.page u _ rows [Ev.typeError] hrows PageShaped.typeErr
                | ok nv2 =>
                  simp only []
                  exact PageShaped.page u _ rows _ hrows (ih root Option.none nv2)
              · rw [hw, if_neg (by simp [hok] : ¬rowsOk l = true)]
                have h := PageShaped.page u
                  (if (u == root) = true then params else Option.none)
                  rows [Ev.typeError] hrows PageShaped.typeErr
                simpa using h
    · exact PageShaped.done

/-- A page-shaped trace contains no file-open and no header-write event. -/
theorem PageShaped_no_open_header (tr : List Ev) (h : PageShaped tr) :
    tr.all (fun ev => !(isOpen ev || isHeaderEv ev)) = true := by
  induction h with
  | done => rfl
  | exhausted => rfl
  | typeErr => rfl
  | fail u ps st t => rfl
  | page u ps rows rest hrows hrest ih =>
    simp only [List.all_cons, List.all_append, Bool.and_eq_true]
    refine ⟨by simp [isOpen, isHeaderEv], ?_, ih⟩
    rw [List.all_eq_true]
    intro e he
    have h2 := hrows e he
    cases e with
    | openFile p => simp [isRowEv] at h2
    | writeHeader => simp [isRowEv] at h2
    | request a b => simp [isRowEv] at h2
    | writeRow n w => simp [isOpen, isHeaderEv]
    | raiseError a b => simp [isRowEv] at h2
    | typeError => simp [isRowEv] at h2
    | exhausted => simp [isRowEv] at h2

/-- C8: in every execution the output destination is opened exactly once,
first; the header row is written second, before any event row; and the
remainder of the trace is page-shaped: each page's request is followed by
that page's row writes before any further request appears, so no request
is issued while rows of an already-received page remain unwritten, and no
open or header event recurs. -/
theorem C8_open_header_then_page_blocks
    (ak c co : String) (s e : PyDatetime) (out : String) (resps : List Response) :
    ∃ rest, fetch_all_events_to_csv ak c co s e out resps
        = Ev.openFile out :: Ev.writeHeader :: rest
      ∧ rest.all (fun ev => !(isOpen ev || isHeaderEv ev)) = true
      ∧ PageShaped rest :=
  ⟨fetchLoop ROOT
      (some (get_params ak (get_iso_date s) (get_iso_date e) c co 200 "date,asc"))
      (.str ROOT) resps,
   rfl,
   PageShaped_no_open_header _ (fetchLoop_pageShaped resps ROOT _ _),
   fetchLoop_pageShaped resps ROOT _ _⟩

/-- A successful, well-formed page: 200 status, an event list every
element of which yields a row without raising, and a links structure
whose next-href extraction does not raise. -/
def isGoodPage (r : Response) : Bool :=
  (r.status_code == 200) &&
  (match eventsOf r.json with
   | .ok (.list l) => rowsOk l
   | _ => false) &&
  (match nextOf r.json with
   | .ok _ => true
   | .error _ => false)

/-- The next-link value a response yields (the new `next_url`); `None`
when extraction raises (unused under `isGoodPage`). -/
def nextVal (r : Response) : PyVal :=
  match nextOf r.json with
  | .ok v => v
  | .error _ => .none

/-- Whether a response carries a usable (truthy string) continuation
link at `links.next.href`. -/
def hasNextLink (r : Response) : Bool :=
  match nextOf r.json with
  | .ok (.str u) => !u.isEmpty
  | _ => false

/-- Unpacking of `isGoodPage`. -/
theorem isGoodPage_spec (r : Response) (h : isGoodPage r = true) :
    r.status_code = 200
    ∧ (∃ l, eventsOf r.json = .ok (.list l) ∧ rowsOk l = true)
    ∧ ∃ nv, nextOf r.json = .ok nv ∧ nextVal r = nv := by
  simp only [isGoodPage, Bool.and_eq_true, beq_iff_eq] at h
  obtain ⟨⟨hs, hev⟩, hnx⟩ := h
  refine ⟨hs, ?_, ?_⟩
  · cases he : eventsOf r.json with
    | error e0 => rw [he] at hev; simp at hev
    | ok v =>
      rw [he] at hev
      cases v with
      | list l => exact ⟨l, rfl, by simpa using hev⟩
      | none => simp at hev
      | str s2 => simp at hev
      | dict d2 => simp at hev
  · cases hn2 : nextOf r.json with
    | error e0 => rw [hn2] at hnx; simp at hnx
    | ok nv => exact ⟨nv, rfl, by simp [nextVal, hn2]⟩

/-- Under `rowsOk`, the row writes of a page are all clean: no errors, no
exhausted marker. -/
theorem clean_writeEvents (l : List PyVal) (h : rowsOk l = true) :
    (writeEvents l).all (fun ev => !(isStop ev || isRaise ev || isTypeErr ev)) = true := by
  rw [writeEvents_of_rowsOk l h, List.all_eq_true]
  intro e he
  obtain ⟨ev, hev, rfl⟩ := List.mem_map.mp he
  have hok : exOk (rowOf ev) = true := by
    rw [rowsOk, List.all_eq_true] at h
    exact h ev hev
  cases hro : rowOf ev with
  | error e0 => rw [hro] at hok; simp [exOk] at hok
  | ok nw => simp [rowEv, hro, isStop, isRaise, isTypeErr]

/-- One well-formed loop iteration: the request is recorded, the page's
rows are written, and the loop recurses on the extracted next value. -/
theorem fetchLoop_good_step (params : Option QueryParams) (u : String)
    (r : Response) (rest : List Response) (l : List PyVal) (nv : PyVal)
    (htu : truthy (.str u) = true)
    (hsc : r.status_code = 200)
    (hel : eventsOf r.json = .ok (.list l))
    (hro : rowsOk l = true)
    (hn2 : nextOf r.json = .ok nv) :
    fetchLoop ROOT params (.str u) (r :: rest)
      = Ev.request u (if u == ROOT then params else Option.none)
        :: (writeEvents l ++ fetchLoop ROOT Option.none nv rest) := by
  simp [fetchLoop, htu, hsc, hel, pyIter, hro, hn2]

/-- The pagination loop issues exactly one request per scripted response
and ends cleanly when every response is well formed, every non-final
response carries a truthy continuation link, and the final response's
link value is falsy. -/
theorem fetchLoop_one_request_per_response (resps : List Response) :
    ∀ (params : Option QueryParams) (u : String),
      truthy (.str u) = true →
      (∀ r ∈ resps, isGoodPage r = true) →
      (∀ r ∈ resps.dropLast, hasNextLink r = true) →
      (∀ r, resps.getLast? = some r → truthy (nextVal r) = false) →
      resps ≠ [] →
      (fetchLoop ROOT params (.str u) resps).countP (fun ev => isRequest ev) = resps.length
      ∧ (fetchLoop ROOT params (.str u) resps).all
          (fun ev => !(isStop ev || isRaise ev || isTypeErr ev)) = true := by
  induction resps with
  | nil => exact fun params u _ _ _ _ hne => absurd rfl hne
  | cons r rest ih =>
    intro params u htu hg hn hl _
    obtain ⟨hsc, ⟨l, hel, hro⟩, ⟨nv, hn2, hnveq⟩⟩ :=
      isGoodPage_spec r (hg r (List.mem_cons_self r rest))
    have hstep := fetchLoop_good_step params u r rest l nv htu hsc hel hro hn2
    cases rest with
    | nil =>
      have hlast : truthy nv = false := by
        have h0 := hl r (by simp)
        rwa [hnveq] at h0
      have hempty : fetchLoop ROOT Option.none nv [] = [] := by
        simp [fetchLoop, hlast]
      rw [hstep, hempty, List.append_nil]
      constructor
      · simp only [List.countP_cons, writeEvents_of_rowsOk l hro,
          countP_requests_map_rowEv]
        simp [isRequest]
      · simp only [List.all_cons, Bool.and_eq_true]
        exact ⟨by simp [isStop, isRaise, isTypeErr], clean_writeEvents l hro⟩
    | cons r2 rest2 =>
      have hmem : r ∈ (r :: r2 :: rest2).dropLast := by
        rw [List.dropLast_cons₂]
        exact List.mem_cons_self r _
      have hnl := hn r hmem
      rw [hasNextLink, hn2] at hnl
      cases nv with
      | str u2 =>
        have htu2 : truthy (.str u2) = true := by simpa [truthy] using hnl
        have hrec := ih Option.none u2 htu2
          (fun r' h' => hg r' (List.mem_cons_of_mem r h'))
          (fun r' h' => hn r' (by rw [List.dropLast_cons₂]; exact List.mem_cons_of_mem r h'))
          (fun r' h' => hl r' (by rwa [List.getLast?_cons_cons]))
          (by simp)
        rw [hstep]
        constructor
        · simp only [List.countP_cons, List.countP_append,
            writeEvents_of_rowsOk l hro, countP_requests_map_rowEv, hrec.1]
          simp [isRequest]
        · simp only [List.all_cons, List.all_append, Bool.and_eq_true]
          exact ⟨by simp [isStop, isRaise, isTypeErr],
            clean_writeEvents l hro, hrec.2⟩
      | none => simp at hnl
      | dict d2 => simp at hnl
      | list l2 => simp at hnl

/-- C10: for every finite sequence of well-formed successful responses
whose non-final members each carry a truthy continuation link and whose
last member's extracted `links.next.href` value is falsy (absent href
included), the pagination loop terminates cleanly: the trace contains
exactly one request per scripted response and neither the
exhausted-script marker nor any raised error. -/
theorem C10_one_request_per_response_and_stops
    (ak c co : String) (s e : PyDatetime) (out : String) (resps : List Response)
    (hg : ∀ r ∈ resps, isGoodPage r = true)
    (hn : ∀ r ∈ resps.dropLast, hasNextLink r = true)
    (hl : ∀ r, resps.getLast? = some r → truthy (nextVal r) = false)
    (hne : resps ≠ []) :
    (fetch_all_events_to_csv ak c co s e out resps).countP (fun ev => isRequest ev)
        = resps.length
    ∧ (fetch_all_events_to_csv ak c co s e out resps).all
        (fun ev => !(isStop ev || isRaise ev || isTypeErr ev)) = true := by
  have h := fetchLoop_one_request_per_response resps
    (some (get_params ak (get_iso_date s) (get_iso_date e) c co 200 "date,asc")) ROOT
    truthy_ROOT hg hn hl hne
  constructor
  · simp only [fetch_all_events_to_csv, List.countP_cons, h.1]
    simp [isRequest]
  · simp only [fetch_all_events_to_csv, List.all_cons, Bool.and_eq_true]
    exact ⟨by simp [isStop, isRaise, isTypeErr],
      by simp [isStop, isRaise, isTypeErr], h.2⟩

/-- C10 witness: the concrete two-page script of the C1 witness; two
requests, clean stop. -/
theorem C10_one_request_per_response_and_stops_witness :
    (∀ r ∈ [wResp1, wResp2], isGoodPage r = true)
    ∧ (∀ r ∈ ([wResp1, wResp2] : List Response).dropLast, hasNextLink r = true)
    ∧ (∀ r, ([wResp1, wResp2] : List Response).getLast? = some r → truthy (nextVal r) = false)
    ∧ ((fetch_all_events_to_csv "k" "Calgary" "CA" ⟨2025, 10, 1, 0, 0, 0⟩ ⟨2025, 12, 1, 0, 0, 0⟩
          "events.csv" [wResp1, wResp2]).countP (fun ev => isRequest ev) = 2
      ∧ (fetch_all_events_to_csv "k" "Calgary" "CA" ⟨2025, 10, 1, 0, 0, 0⟩ ⟨2025, 12, 1, 0, 0, 0⟩
          "events.csv" [wResp1, wResp2]).all
          (fun ev => !(isStop ev || isRaise ev || isTypeErr ev)) = true) := by
  have h1 : ∀ r ∈ [wResp1, wResp2], isGoodPage r = true := by
    intro r hr
    rcases List.mem_cons.mp hr with rfl | hr
    · rfl
    · rcases List.mem_cons.mp hr with rfl | hr
      · rfl
      · simp at hr
  have h2 : ∀ r ∈ ([wResp1, wResp2] : List Response).dropLast, hasNextLink r = true := by
    intro r hr
    have hr2 : r ∈ [wResp1] := hr
    rcases List.mem_cons.mp hr2 with rfl | hr2
    · rfl
    · simp at hr2
  have h3 : ∀ r, ([wResp1, wResp2] : List Response).getLast? = some r →
      truthy (nextVal r) = false := by
    intro r hr
    have h0 : some wResp2 = some r := hr
    cases h0
    rfl
  exact ⟨h1, h2, h3,
    C10_one_request_per_response_and_stops "k" "Calgary" "CA"
      ⟨2025, 10, 1, 0, 0, 0⟩ ⟨2025, 12, 1, 0, 0, 0⟩ "events.csv" [wResp1, wResp2]
      h1 h2 h3 (by simp)⟩
